import Mathlib

/-!
# Verification of the x402 micropayment negotiation layer

Shallow embedding of the payment-protocol slice of the repository:

* `src/lib/x402/protocol.ts` — requirement negotiation, payment verification,
  settlement, route matching, and the `withX402Payment` middleware;
* the ZK/commitment module (`verifyPaymentProof`, nullifier store).

External collaborators (`ethers` hashing/recovery, base64+JSON codecs) are
modelled as an `Env` of opaque functions, exactly at the call granularity the
source uses them.  JavaScript numbers used for timestamps are modelled as `Int`
(the code only adds/subtracts/compares them); decimal amount strings are
parsed by a concrete model of `ethers.parseEther` into integer base units.
The process-wide `Set<string>` of used nullifiers is modelled as a `List String`
threaded explicitly through the stateful operations.
-/

namespace X402

/-- Lower-case a string, modelling JavaScript `String.prototype.toLowerCase`
as used on hex addresses. -/
def lowerStr (s : String) : String := String.mk (s.toList.map Char.toLower)

/-- Upper-case a string, modelling `String.prototype.toUpperCase`. -/
def upperStr (s : String) : String := String.mk (s.toList.map Char.toUpper)

/-- `ethers.ZeroAddress`. -/
def ZeroAddress : String := "0x0000000000000000000000000000000000000000"

/-- JavaScript truthiness of a nullable string (`null`/`undefined` and the
empty string are falsy). -/
def truthy (o : Option String) : Bool :=
  match o with
  | some s => s ≠ ""
  | none => false

/-- JavaScript `a || b` on nullable strings. -/
def jsOrStr (a b : Option String) : Option String :=
  if truthy a then a else b

/-- A typed value handed to `ethers.AbiCoder.defaultAbiCoder().encode`;
one constructor per solidity type the source uses. -/
inductive EncVal
  | u (n : Int)
  | b32 (s : String)
  | addr (s : String)
  | str (s : String)
deriving DecidableEq, Repr

-- --- ethers.parseEther: decimal string → integer base units (18 decimals) ---

/-- Digits of a numeral string folded to a `Nat`. -/
def digitsToNat (l : List Char) : Nat :=
  l.foldl (fun a c => a * 10 + (c.toNat - 48)) 0

/-- All characters are decimal digits. -/
def allDigits (l : List Char) : Bool := l.all Char.isDigit

/-- Split a character list at every `.` (the pieces, in order). -/
def splitOnDot : List Char → List (List Char)
  | [] => [[]]
  | c :: rest =>
    let r := splitOnDot rest
    if c = '.' then [] :: r
    else
      match r with
      | [] => [[c]]
      | h :: t => (c :: h) :: t

/-- Model of `ethers.parseEther`: parse a decimal string into integer base
units (`value * 10^18`), failing (as the library throws) on a malformed
string or more than 18 fractional digits. -/
def parseEther (s : String) : Except String Int :=
  let (neg, body) :=
    match s.toList with
    | '-' :: r => (true, r)
    | r => (false, r)
  let sign : Int := if neg then -1 else 1
  match splitOnDot body with
  | [w] =>
    if w ≠ [] ∧ allDigits w then
      .ok (sign * (digitsToNat w * 10 ^ 18 : Nat))
    else .error "invalid FixedNumber string value"
  | [w, f] =>
    if allDigits w ∧ allDigits f ∧ f ≠ [] ∧ f.length ≤ 18 ∧
        (w ≠ [] ∨ f ≠ []) then
      .ok (sign * ((digitsToNat w * 10 ^ 18
        + digitsToNat f * 10 ^ (18 - f.length) : Nat)))
    else .error "invalid FixedNumber string value"
  | _ => .error "invalid FixedNumber string value"

-- --- Data model (src/lib/x402/protocol.ts and the ZK module types) ---

/-- `ZKPaymentProof.proof` block. -/
structure ZKProofBody where
  amountHash : String
  senderHash : String
  receiverHash : String
  timestamp : Int
  signature : String
deriving DecidableEq, Repr

/-- `ZKPaymentProof.publicInputs`. -/
structure ZKPublicInputs where
  minAmount : String
  chainId : Int
  contractAddress : String
  bountyId : Option String
deriving DecidableEq, Repr

/-- The commitment-based payment artifact. -/
structure ZKPaymentProof where
  commitment : String
  nullifier : String
  proof : ZKProofBody
  publicInputs : ZKPublicInputs
deriving DecidableEq, Repr

/-- Result of `verifyPaymentProof`. -/
structure ZKVerificationResult where
  valid : Bool
  error : Option String
  commitment : Option String
  nullifier : Option String
deriving DecidableEq, Repr

/-- `PaymentPayload.payload` body. -/
structure PaymentBody where
  sender : String
  signature : Option String
  zkProof : Option ZKPaymentProof
  amount : String
  nonce : String
  timestamp : Int
deriving DecidableEq, Repr

/-- Caller's attempt to satisfy a requirement.  The runtime `scheme` comes
from decoded JSON, so it is an arbitrary string. -/
structure PaymentPayload where
  x402Version : Int
  scheme : String
  network : String
  payload : PaymentBody
deriving DecidableEq, Repr

/-- Server-declared price for a resource. -/
structure PaymentRequirements where
  scheme : String
  network : String
  maxAmountRequired : String
  payTo : String
  resource : String
  description : String
  mimeType : String
  contractAddress : Option String
  bountyId : Option String
deriving DecidableEq, Repr

/-- Outcome of settlement. -/
structure SettlementResponse where
  success : Bool
  txHash : Option String
  receipt : Option String
  error : Option String
deriving DecidableEq, Repr

/-- Result of `verifyPaymentFromRequest`. -/
structure VerifyResult where
  valid : Bool
  payload : Option PaymentPayload
  error : Option String
deriving DecidableEq, Repr

/-- External collaborators: `ethers` hashing and signature recovery, and the
base64+JSON codecs.  `keccakEnc` models `keccak256(abiCoder.encode(tys, vals))`;
`verifyMessage` models `ethers.verifyMessage` (an `.error` is a thrown
exception carrying its message). -/
structure Env where
  keccakEnc : List EncVal → String
  verifyMessage : String → String → Except String String
  decodePayload : String → Except String PaymentPayload
  encodeReqs : List PaymentRequirements → String
  encodeSettlement : SettlementResponse → String

-- --- Nullifier store (module-level Set<string>) ---

/-- `isNullifierUsed`. -/
def isNullifierUsed (st : List String) (nullifier : String) : Bool :=
  st.contains nullifier

/-- `markNullifierUsed`: idempotent insert into the set. -/
def markNullifierUsed (st : List String) (nullifier : String) : List String :=
  if st.contains nullifier then st else nullifier :: st

/-- `clearNullifiers`. -/
def clearNullifiers (_st : List String) : List String := []

-- --- verifyPaymentProof ---

/-- The binding message of a proof: keccak over
(commitment, nullifier, amountHash, senderHash, receiverHash, timestamp). -/
def proofBindingMessage (env : Env) (proof : ZKPaymentProof) : String :=
  env.keccakEnc [.b32 proof.commitment, .b32 proof.nullifier,
    .b32 proof.proof.amountHash, .b32 proof.proof.senderHash,
    .b32 proof.proof.receiverHash, .u proof.proof.timestamp]

/-- Step (e) of `verifyPaymentProof`: recompute the binding message, recover
the signer, reject on recovery failure (thrown → caught) or a falsy/zero
recovered address. -/
def proofSigCheck (env : Env) (proof : ZKPaymentProof) : ZKVerificationResult :=
  match env.verifyMessage (proofBindingMessage env proof) proof.proof.signature with
  | .error e => ⟨false, some ("Proof verification failed: " ++ e), none, none⟩
  | .ok rec =>
    if rec = "" ∨ rec = ZeroAddress then
      ⟨false, some "Invalid proof signature", none, none⟩
    else ⟨true, none, some proof.commitment, some proof.nullifier⟩

/-- `verifyPaymentProof(proof, expectedChainId, expectedContractAddress)`,
with `now = Math.floor(Date.now() / 1000)` passed explicitly. -/
def verifyPaymentProof (env : Env) (now : Int) (proof : ZKPaymentProof)
    (expectedChainId : Int) (expectedContractAddress : String) :
    ZKVerificationResult :=
  if proof.publicInputs.chainId ≠ expectedChainId then
    ⟨false, some "Chain ID mismatch", none, none⟩
  else if lowerStr proof.publicInputs.contractAddress ≠
      lowerStr expectedContractAddress then
    ⟨false, some "Contract address mismatch", none, none⟩
  else if now - proof.proof.timestamp > 3600 then
    ⟨false, some "Proof expired", none, none⟩
  else if proof.proof.timestamp > now + 60 then
    ⟨false, some "Proof timestamp in the future", none, none⟩
  else proofSigCheck env proof

-- --- verifyPaymentFromRequest ---

/-- An inbound request: the URL and the two payment headers the server
consults (`payment-signature`, then the legacy alias `x-payment`). -/
structure HttpRequest where
  url : String
  paymentSignature : Option String
  xPayment : Option String
deriving DecidableEq, Repr

/-- Header lookup from the source:
`headers.get('payment-signature') || headers.get('x-payment')`. -/
def getPaymentHeader (request : HttpRequest) : Option String :=
  jsOrStr request.paymentSignature request.xPayment

/-- The tail of `verifyPaymentFromRequest` (its second `if` and the final
`return`): the guard is the source's
`payload.scheme === 'exact' && payload.payload.signature`, where the second
conjunct is JavaScript truthiness — an absent *or empty-string* signature is
falsy, the check is skipped, and the payload falls through to
`valid: true`. -/
def exactVerify (env : Env) (payload : PaymentPayload) (paidAmount : Int) :
    VerifyResult :=
  if payload.scheme = "exact" ∧ truthy payload.payload.signature then
    let sig := payload.payload.signature.getD ""
    let message := env.keccakEnc [.addr payload.payload.sender, .u paidAmount,
      .str payload.payload.nonce, .u payload.payload.timestamp]
    match env.verifyMessage message sig with
    | .error e => ⟨false, none, some ("Payment verification failed: " ++ e)⟩
    | .ok rec =>
      if lowerStr rec ≠ lowerStr payload.payload.sender then
        ⟨false, none, some "Invalid payment signature"⟩
      else ⟨true, some payload, none⟩
  else ⟨true, some payload, none⟩

/-- Scheme-specific verification dispatched after the generic checks:
the zk-exact branch (proof verification, then the nullifier check), falling
through to `exactVerify`. -/
def schemeVerify (env : Env) (now : Int) (payload : PaymentPayload)
    (requirements : PaymentRequirements) (chainId : Int) (st : List String)
    (paidAmount : Int) : VerifyResult :=
  if payload.scheme = "zk-exact" then
    match payload.payload.zkProof with
    | some zp =>
      let zkResult := verifyPaymentProof env now zp chainId
        (requirements.contractAddress.getD "")
      if zkResult.valid = false then
        ⟨false, none, some ("ZK proof invalid: " ++ zkResult.error.getD "undefined")⟩
      else if isNullifierUsed st zp.nullifier then
        ⟨false, none, some "Payment already used (nullifier spent)"⟩
      else exactVerify env payload paidAmount
    | none => exactVerify env payload paidAmount
  else exactVerify env payload paidAmount

/-- `verifyPaymentFromRequest(request, requirements, chainId)` with the clock
and the nullifier store passed explicitly.  Exceptions thrown anywhere inside
the `try` (decode, `parseEther`, `verifyMessage`) surface as the catch-all
`Payment verification failed: ...` result. -/
def verifyPaymentFromRequest (env : Env) (now : Int) (request : HttpRequest)
    (requirements : PaymentRequirements) (chainId : Int) (st : List String) :
    VerifyResult :=
  match getPaymentHeader request with
  | none => ⟨false, none, some "No payment header provided"⟩
  | some hdr =>
    if hdr = "" then ⟨false, none, some "No payment header provided"⟩
    else
      match env.decodePayload hdr with
      | .error e => ⟨false, none, some ("Payment verification failed: " ++ e)⟩
      | .ok payload =>
        if payload.x402Version ≠ 1 then
          ⟨false, none, some "Unsupported x402 version"⟩
        else if payload.scheme ≠ requirements.scheme then
          ⟨false, none, some "Payment scheme mismatch"⟩
        else
          match parseEther requirements.maxAmountRequired with
          | .error e => ⟨false, none, some ("Payment verification failed: " ++ e)⟩
          | .ok requiredAmount =>
            match parseEther payload.payload.amount with
            | .error e => ⟨false, none, some ("Payment verification failed: " ++ e)⟩
            | .ok paidAmount =>
              if paidAmount < requiredAmount then
                ⟨false, none, some "Insufficient payment amount"⟩
              else if now - payload.payload.timestamp > 300 then
                ⟨false, none, some "Payment expired"⟩
              else schemeVerify env now payload requirements chainId st paidAmount

-- --- settlePayment ---

/-- `settlePayment(payload, requirements, provider, adminSigner?)`.
`adminSigner` carries, when present, the outcome of its awaited
`sendTransaction` (`.ok txHash` or `.error message` for a thrown failure);
`nowMs` is `Date.now()`.  Returns the settlement response together with the
updated nullifier store: the nullifier is marked used first, inside the
`try`, so a later transfer failure keeps the mark. -/
def settlePayment (_env : Env) (nowMs : Int) (payload : PaymentPayload)
    (requirements : PaymentRequirements)
    (adminSigner : Option (Except String String)) (st : List String) :
    SettlementResponse × List String :=
  let st1 :=
    match payload.payload.zkProof with
    | some zp =>
      if payload.scheme = "zk-exact" then markNullifierUsed st zp.nullifier
      else st
    | none => st
  let offchain : SettlementResponse × List String :=
    (⟨true, none,
      some ("offchain:" ++ payload.payload.nonce ++ ":" ++ toString nowMs),
      none⟩, st1)
  match adminSigner with
  | some txResult =>
    if truthy requirements.contractAddress then
      match parseEther payload.payload.amount with
      | .error e => (⟨false, none, none, some ("Settlement failed: " ++ e)⟩, st1)
      | .ok _ =>
        match txResult with
        | .ok h =>
          (⟨true, some h,
            some ("settled:" ++ h ++ ":" ++ toString nowMs), none⟩, st1)
        | .error e =>
          (⟨false, none, none, some ("Settlement failed: " ++ e)⟩, st1)
    else offchain
  | none => offchain

-- --- 402 responses and the middleware ---

/-- A response body: either the 402 negotiation JSON or an opaque business
handler body. -/
inductive RespBody
  | paymentRequired (x402Version : Int) (error : String)
      (accepts : List PaymentRequirements)
  | business (content : String)
deriving DecidableEq, Repr

/-- An HTTP response. -/
structure HttpResponse where
  status : Nat
  body : RespBody
  headers : List (String × String)
deriving DecidableEq, Repr

/-- `headers.set`: overwrite-or-add a header. -/
def setHeader (hs : List (String × String)) (n v : String) :
    List (String × String) :=
  (n, v) :: hs.filter (fun kv => kv.1 ≠ n)

/-- `message || 'Payment Required'` (JS `||`, so the empty string also falls
back to the default). -/
def msgOrDefault (message : Option String) : String :=
  match message with
  | some s => if s = "" then "Payment Required" else s
  | none => "Payment Required"

/-- `createPaymentRequiredResponse(requirements, message?)`: status 402, the
negotiation JSON body, and the base64 copy of the requirements in the
`PAYMENT-REQUIRED` header. -/
def createPaymentRequiredResponse (env : Env)
    (requirements : List PaymentRequirements) (message : Option String) :
    HttpResponse :=
  { status := 402
    body := .paymentRequired 1 (msgOrDefault message) requirements
    headers := [("PAYMENT-REQUIRED", env.encodeReqs requirements),
      ("Content-Type", "application/json")] }

/-- Configuration handed to `withX402Payment`. -/
structure X402Config where
  price : String
  description : String
  useZkProof : Bool
  bountyId : Option String
  payTo : String
  contractAddress : Option String
  chainId : Int
  network : String
deriving DecidableEq, Repr

/-- The `PaymentRequirements` value `withX402Payment` builds per request. -/
def buildRequirements (config : X402Config) (requestUrl : String) :
    PaymentRequirements :=
  { scheme := if config.useZkProof then "zk-exact" else "exact"
    network := config.network
    maxAmountRequired := config.price
    payTo := config.payTo
    resource := requestUrl
    description := config.description
    mimeType := "application/json"
    contractAddress := config.contractAddress
    bountyId := config.bountyId }

/-- The settlement-header step of `withX402Payment` (its final block): the
`PAYMENT-RESPONSE` header is set only when `settlement.success` holds; the
response is otherwise returned untouched. -/
def attachSettlementHeader (env : Env) (response : HttpResponse)
    (settlement : SettlementResponse) : HttpResponse :=
  if settlement.success then
    { response with
        headers := setHeader response.headers "PAYMENT-RESPONSE"
          (env.encodeSettlement settlement) }
  else response

/-- `withX402Payment(handler, config)` applied to a request: verify the
payment; on failure answer with a fresh 402; on success run the business
handler and, when its status is below 400, settle (the source calls
`settlePayment` without an admin signer) and attach the settlement header. -/
def withX402Payment (env : Env) (now nowMs : Int)
    (handler : HttpRequest → HttpResponse) (config : X402Config)
    (request : HttpRequest) (st : List String) :
    HttpResponse × List String :=
  let requirements := buildRequirements config request.url
  let paymentResult := verifyPaymentFromRequest env now request requirements
    config.chainId st
  if paymentResult.valid = false then
    (createPaymentRequiredResponse env [requirements] paymentResult.error, st)
  else
    let response := handler request
    match paymentResult.payload with
    | some payload =>
      if response.status < 400 then
        let s := settlePayment env nowMs payload requirements none st
        (attachSettlementHeader env response s.1, s.2)
      else (response, st)
    | none => (response, st)

-- --- Route matching ---

/-- Per-route payment configuration. -/
structure RoutePaymentConfig where
  price : String
  description : String
  useZkProof : Bool
  bountyId : Option String
deriving DecidableEq, Repr

/-- One token of the regex the source compiles a path pattern to:
`star` is `.*` (from `*`), `seg` is `([^/]+)` (from `[name]`), `dot` is a
literal `.` kept by the compilation (regex any-character), `lit` a literal
character. -/
inductive GlobTok
  | star
  | seg
  | dot
  | lit (c : Char)
deriving DecidableEq, Repr

/-- Characters that would reach the compiled regex unescaped with a meaning
other than themselves; patterns containing them are outside the modelled
domain. -/
def regexSpecial (c : Char) : Bool :=
  c = '(' ∨ c = ')' ∨ c = '+' ∨ c = '?' ∨ c = '^' ∨ c = '$' ∨ c = '|' ∨
  c = '\\' ∨ c = ']' ∨ c = '\x7b' ∨ c = '\x7d'

/-- Tokenizer for the source's pattern compilation
(`replace(*→.*)` then `replace([x]→([^/]+))`): first flag says we are inside
an open `[`, second whether it has content so far.  Returns `none` where the
compiled regex would not have the plain glob meaning (the source would throw
or degenerate). -/
def tokLoop : Bool → Bool → List Char → Option (List GlobTok)
  | false, _, [] => some []
  | true, _, [] => none
  | false, b, c :: rest =>
    if c = '[' then tokLoop true false rest
    else if c = '*' then (tokLoop false b rest).map (.star :: ·)
    else if c = '.' then (tokLoop false b rest).map (.dot :: ·)
    else if regexSpecial c then none
    else (tokLoop false b rest).map (.lit c :: ·)
  | true, hasContent, c :: rest =>
    if c = ']' then
      if hasContent then (tokLoop false false rest).map (.seg :: ·) else none
    else tokLoop true true rest

/-- Compile a route path pattern to tokens. -/
def tokenizePattern (s : String) : Option (List GlobTok) :=
  tokLoop false false s.toList

/-- Fuel-driven matcher for the anchored compiled pattern: `star` matches any
run of characters, `seg` one or more non-slash characters, `dot` any single
character, `lit` itself.  Fuel `toks.length + s.length + 1` always suffices. -/
def globMatchF : Nat → List GlobTok → List Char → Bool
  | 0, _, _ => false
  | _ + 1, [], [] => true
  | _ + 1, [], _ :: _ => false
  | f + 1, .lit c :: ts, d :: ds => c = d && globMatchF f ts ds
  | _ + 1, .lit _ :: _, [] => false
  | f + 1, .dot :: ts, _ :: ds => globMatchF f ts ds
  | _ + 1, .dot :: _, [] => false
  | f + 1, .star :: ts, s =>
    globMatchF f ts s ||
      (match s with
       | [] => false
       | _ :: ds => globMatchF f (.star :: ts) ds)
  | f + 1, .seg :: ts, d :: ds =>
    d ≠ '/' && (globMatchF f ts ds || globMatchF f (.seg :: ts) ds)
  | _ + 1, .seg :: _, [] => false

/-- Anchored match of a compiled pattern against a pathname. -/
def globMatch (ts : List GlobTok) (s : List Char) : Bool :=
  globMatchF (ts.length + s.length + 1) ts s

/-- Split at the first space (the net effect of the source's
`pattern.split(' ')` into `[routeMethod, ...routeParts]` followed by
`routeParts.join(' ')`). -/
def splitKeyAux : List Char → String × String
  | [] => ("", "")
  | c :: rest =>
    if c = ' ' then ("", String.mk rest)
    else
      let r := splitKeyAux rest
      (String.mk (c :: r.1.toList), r.2)

/-- `pattern.split(' ')` into the method part and the space-rejoined path
part. -/
def splitKey (pattern : String) : String × String :=
  splitKeyAux pattern.toList

/-- First route entry whose key equals `k` (`routes[routeKey]`). -/
def findEntry (routes : List (String × RoutePaymentConfig)) (k : String) :
    Option RoutePaymentConfig :=
  (routes.find? (fun e => e.1 = k)).map (·.2)

/-- The pattern-scanning loop of `matchRoute`: skip entries whose method part
is neither the upper-cased request method nor `*`; compile the path part
(a compilation failure models the thrown `SyntaxError`); return the first
entry whose compiled pattern matches the pathname. -/
def scanRoutes (pathname methodU : String) :
    List (String × RoutePaymentConfig) →
    Except String (Option (String × RoutePaymentConfig))
  | [] => .ok none
  | (pattern, config) :: rest =>
    let mp := splitKey pattern
    if mp.1 ≠ methodU ∧ mp.1 ≠ "*" then scanRoutes pathname methodU rest
    else
      match tokenizePattern mp.2 with
      | none => .error "Invalid regular expression"
      | some toks =>
        if globMatch toks pathname.toList then .ok (some (pattern, config))
        else scanRoutes pathname methodU rest

/-- `matchRoute(pathname, method, routes)`: exact `"METHOD path"` key first,
then the ordered pattern scan, `none` when nothing matches. -/
def matchRoute (pathname method : String)
    (routes : List (String × RoutePaymentConfig)) :
    Except String (Option (String × RoutePaymentConfig)) :=
  let routeKey := upperStr method ++ " " ++ pathname
  match findEntry routes routeKey with
  | some config => .ok (some (routeKey, config))
  | none => scanRoutes pathname (upperStr method) routes

/-- Modelled from the spec sentence for `match` (claim C8): an entry matches
when its method part equals the upper-cased request method or is `*`, and its
compiled anchored pattern matches the pathname. -/
def patternEntryMatches (pathname methodU : String)
    (entry : String × RoutePaymentConfig) : Bool :=
  let mp := splitKey entry.1
  (mp.1 = methodU ∨ mp.1 = "*") &&
    (match tokenizePattern mp.2 with
     | some toks => globMatch toks pathname.toList
     | none => false)

/-- Modelled from the spec sentence for `match` (claim C8): try the exact
`"METHOD path"` key, else the first pattern entry that matches, else `none`. -/
def matchRouteSpec (pathname method : String)
    (routes : List (String × RoutePaymentConfig)) :
    Option (String × RoutePaymentConfig) :=
  let routeKey := upperStr method ++ " " ++ pathname
  match findEntry routes routeKey with
  | some config => some (routeKey, config)
  | none => routes.find? (patternEntryMatches pathname (upperStr method))

-- --- Concrete fixtures used by the witness theorems ---

/-- A concrete proof artifact: arbitrary commitment/nullifier/hash strings,
generated at second 900, bound to chain 1 and contract `0xCA`. -/
def zp1 : ZKPaymentProof :=
  ⟨"0xc", "0xn1", ⟨"0xa", "0xs", "0xr", 900, "0xdeadbeef"⟩,
    ⟨"1", 1, "0xCA", none⟩⟩

/-- zk-exact payload that carries no `zkProof` at all. -/
def payloadZkNoProof : PaymentPayload :=
  ⟨1, "zk-exact", "monad", ⟨"0xSender", none, none, "1", "0xnonceA", 900⟩⟩

/-- zk-exact payload carrying `zp1`. -/
def payloadZkWithProof : PaymentPayload :=
  ⟨1, "zk-exact", "monad", ⟨"0xSender", none, some zp1, "1", "0xnonceB", 900⟩⟩

/-- exact payload that carries no signature. -/
def payloadExactNoSig : PaymentPayload :=
  ⟨1, "exact", "monad", ⟨"0xSender", none, none, "1", "0xnonceC", 900⟩⟩

/-- exact payload signed by its sender (under `envTriv`, recovery returns the
signature string itself). -/
def payloadExactSig : PaymentPayload :=
  ⟨1, "exact", "monad",
    ⟨"0xSender", some "0xSender", none, "1", "0xnonceD", 900⟩⟩

/-- exact payload offering less than the requirement. -/
def payloadLowAmount : PaymentPayload :=
  ⟨1, "exact", "monad", ⟨"0xSender", none, none, "0.5", "0xnonceE", 900⟩⟩

/-- exact payload whose signature field is present but the empty string
(falsy in JavaScript). -/
def payloadExactEmptySig : PaymentPayload :=
  ⟨1, "exact", "monad", ⟨"0xSender", some "", none, "1", "0xnonceF", 900⟩⟩

/-- zk-exact requirement priced at 1, settled against contract `0xCA`. -/
def reqZk : PaymentRequirements :=
  ⟨"zk-exact", "monad", "1", "0xPayee", "/api/r", "d", "application/json",
    some "0xCA", none⟩

/-- exact requirement priced at 1. -/
def reqExact : PaymentRequirements :=
  ⟨"exact", "monad", "1", "0xPayee", "/api/r", "d", "application/json",
    some "0xCA", none⟩

/-- A concrete environment for witnesses: recovery returns the signature
string itself (failing on the empty signature), and the decoder maps a few
fixed header strings to the fixture payloads. -/
def envTriv : Env where
  keccakEnc := fun l => "0xmsg" ++ toString l.length
  verifyMessage := fun _ sig =>
    if sig = "" then .error "invalid signature" else .ok sig
  decodePayload := fun s =>
    if s = "p1" then .ok payloadZkNoProof
    else if s = "p2" then .ok payloadZkWithProof
    else if s = "p3" then .ok payloadExactNoSig
    else if s = "p4" then .ok payloadExactSig
    else if s = "p5" then .ok payloadLowAmount
    else if s = "p6" then .ok payloadExactEmptySig
    else .error "Unexpected token in JSON"
  encodeReqs := fun l => "reqs:" ++ toString l.length
  encodeSettlement := fun _ => "settlement-enc"

-- --- Shared lemmas on the nullifier store and verification ---

/-- Marking a nullifier makes it used. -/
theorem isNullifierUsed_mark_self (st : List String) (n : String) :
    isNullifierUsed (markNullifierUsed st n) n = true := by
  unfold isNullifierUsed markNullifierUsed
  split
  · assumption
  · simp [List.contains_cons]

/-- Marking never unmarks: a used nullifier stays used. -/
theorem isNullifierUsed_mark_mono (st : List String) (n m : String)
    (h : isNullifierUsed st n = true) :
    isNullifierUsed (markNullifierUsed st m) n = true := by
  unfold isNullifierUsed markNullifierUsed at *
  split
  · exact h
  · simp only [List.contains_cons, h, Bool.or_true]

/-- `settlePayment` on a zk-exact payload with a proof marks the nullifier in
every branch, including all failure branches. -/
theorem settlePayment_marks (env : Env) (nowMs : Int)
    (payload : PaymentPayload) (requirements : PaymentRequirements)
    (adminSigner : Option (Except String String)) (st : List String)
    (zp : ZKPaymentProof) (hs : payload.scheme = "zk-exact")
    (hz : payload.payload.zkProof = some zp) :
    isNullifierUsed
      (settlePayment env nowMs payload requirements adminSigner st).2
      zp.nullifier = true := by
  unfold settlePayment
  simp only [hz, hs, if_pos rfl]
  rcases adminSigner with _ | tx
  · simpa using isNullifierUsed_mark_self st zp.nullifier
  · simp only []
    split
    · rcases hpe : parseEther payload.payload.amount with e | p
      · simpa [hpe] using isNullifierUsed_mark_self st zp.nullifier
      · rcases tx with h | e <;>
          simpa [hpe] using isNullifierUsed_mark_self st zp.nullifier
    · simpa using isNullifierUsed_mark_self st zp.nullifier

/-- Any zk-exact payload whose proof carries an already-used nullifier is
rejected, whichever check fires first. -/
theorem verify_spent_valid_false (env : Env) (now : Int)
    (request : HttpRequest) (requirements : PaymentRequirements)
    (chainId : Int) (st : List String) (hdr : String)
    (payload : PaymentPayload) (zp : ZKPaymentProof)
    (hh : getPaymentHeader request = some hdr) (hne : hdr ≠ "")
    (hd : env.decodePayload hdr = .ok payload)
    (hs : payload.scheme = "zk-exact")
    (hz : payload.payload.zkProof = some zp)
    (hu : isNullifierUsed st zp.nullifier = true) :
    (verifyPaymentFromRequest env now request requirements chainId st).valid
      = false := by
  simp only [verifyPaymentFromRequest, hh, hd]
  rw [if_neg hne]
  split
  · rfl
  · split
    · rfl
    · split
      · rfl
      · split
        · rfl
        · split
          · rfl
          · split
            · rfl
            · simp only [schemeVerify, hs, hz, hu]
              split
              · split <;> rfl
              · simp_all

/-- When every earlier check passes, a used nullifier yields exactly the
nullifier-spent rejection. -/
theorem verify_spent_error (env : Env) (now : Int) (request : HttpRequest)
    (requirements : PaymentRequirements) (chainId : Int) (st : List String)
    (hdr : String) (payload : PaymentPayload) (zp : ZKPaymentProof)
    (r p : Int)
    (hh : getPaymentHeader request = some hdr) (hne : hdr ≠ "")
    (hd : env.decodePayload hdr = .ok payload)
    (hv : payload.x402Version = 1)
    (hsr : payload.scheme = requirements.scheme)
    (hr : parseEther requirements.maxAmountRequired = .ok r)
    (hp : parseEther payload.payload.amount = .ok p)
    (hge : ¬ p < r)
    (hfresh : ¬ now - payload.payload.timestamp > 300)
    (hs : payload.scheme = "zk-exact")
    (hz : payload.payload.zkProof = some zp)
    (hzv : (verifyPaymentProof env now zp chainId
      (requirements.contractAddress.getD "")).valid = true)
    (hu : isNullifierUsed st zp.nullifier = true) :
    verifyPaymentFromRequest env now request requirements chainId st =
      ⟨false, none, some "Payment already used (nullifier spent)"⟩ := by
  simp only [verifyPaymentFromRequest, hh, hd, hr, hp]
  rw [if_neg hne, if_neg (by simp [hv]), if_neg (by simp [hsr]),
    if_neg hge, if_neg hfresh]
  simp only [schemeVerify, hs, hz, hzv]
  simp [hu]

-- --- Claim theorems ---

/-- **C1** — no double-spend.  Settling a zk-exact payment marks its proof's
nullifier used in every branch of `settlePayment`; marking is monotone (a
used nullifier is never unmarked), so in the sequential process lifetime at
most one verification attempt can observe `isNullifierUsed n = false` before
a successful `markNullifierUsed n`; and once the nullifier is marked, every
later `verifyPaymentFromRequest` presenting a zk-exact payload whose proof
carries the same nullifier returns `valid = false` — with exactly the
nullifier-spent error whenever the earlier checks pass. -/
theorem c1_no_double_spend (env : Env) (nowMs : Int) (st : List String)
    (payload : PaymentPayload) (requirements : PaymentRequirements)
    (adminSigner : Option (Except String String)) (zp : ZKPaymentProof)
    (hs : payload.scheme = "zk-exact")
    (hz : payload.payload.zkProof = some zp) :
    isNullifierUsed
      (settlePayment env nowMs payload requirements adminSigner st).2
      zp.nullifier = true
    ∧ (∀ st2 n m, isNullifierUsed st2 n = true →
        isNullifierUsed (markNullifierUsed st2 m) n = true)
    ∧ (∀ st3 request hdr payload2 zp2 req2 cid2 now2,
        isNullifierUsed st3 zp.nullifier = true →
        getPaymentHeader request = some hdr → hdr ≠ "" →
        env.decodePayload hdr = .ok payload2 →
        payload2.scheme = "zk-exact" →
        payload2.payload.zkProof = some zp2 →
        zp2.nullifier = zp.nullifier →
        (verifyPaymentFromRequest env now2 request req2 cid2 st3).valid = false)
    ∧ (∀ st3 request hdr payload2 zp2 req2 cid2 now2 r p,
        isNullifierUsed st3 zp.nullifier = true →
        getPaymentHeader request = some hdr → hdr ≠ "" →
        env.decodePayload hdr = .ok payload2 →
        payload2.x402Version = 1 →
        payload2.scheme = req2.scheme →
        parseEther req2.maxAmountRequired = .ok r →
        parseEther payload2.payload.amount = .ok p →
        ¬ p < r → ¬ now2 - payload2.payload.timestamp > 300 →
        payload2.scheme = "zk-exact" →
        payload2.payload.zkProof = some zp2 →
        zp2.nullifier = zp.nullifier →
        (verifyPaymentProof env now2 zp2 cid2
          (req2.contractAddress.getD "")).valid = true →
        verifyPaymentFromRequest env now2 request req2 cid2 st3 =
          ⟨false, none, some "Payment already used (nullifier spent)"⟩) := by
  refine ⟨settlePayment_marks env nowMs payload requirements adminSigner st
    zp hs hz, ?_, ?_, ?_⟩
  · exact fun st2 n m h => isNullifierUsed_mark_mono st2 n m h
  · intro st3 request hdr payload2 zp2 req2 cid2 now2 h hh hne hd hs2 hz2 heq
    exact verify_spent_valid_false env now2 request req2 cid2 st3 hdr payload2
      zp2 hh hne hd hs2 hz2 (by rw [heq]; exact h)
  · intro st3 request hdr payload2 zp2 req2 cid2 now2 r p h hh hne hd hv hsr
      hr hp hge hfresh hs2 hz2 heq hzv
    exact verify_spent_error env now2 request req2 cid2 st3 hdr payload2 zp2
      r p hh hne hd hv hsr hr hp hge hfresh hs2 hz2 hzv (by rw [heq]; exact h)

/-- Witness for C1: settling the concrete zk-exact payment marks nullifier
`0xn1`, and re-presenting the same payload against a store containing `0xn1`
is rejected as nullifier-spent. -/
theorem c1_no_double_spend_witness :
    isNullifierUsed
      (settlePayment envTriv 1000 payloadZkWithProof reqZk none []).2
      "0xn1" = true
    ∧ verifyPaymentFromRequest envTriv 1000 ⟨"/api/r", some "p2", none⟩ reqZk 1
        ["0xn1"] =
      ⟨false, none, some "Payment already used (nullifier spent)"⟩ := by
  have h := c1_no_double_spend envTriv 1000 [] payloadZkWithProof reqZk
    none zp1 rfl rfl
  refine ⟨h.1, ?_⟩
  exact h.2.2.2 ["0xn1"] ⟨"/api/r", some "p2", none⟩ "p2" payloadZkWithProof
    zp1 reqZk 1 1000 1000000000000000000 1000000000000000000
    (by decide) rfl (by decide) rfl rfl rfl rfl rfl (by decide) (by decide)
    rfl rfl rfl (by rfl)

/-- Proof artifact at the `now - 3601` boundary (witness uses `now = 10000`). -/
def zpOld : ZKPaymentProof :=
  ⟨"0xc", "0xn2", ⟨"0xa", "0xs", "0xr", 6399, "0xdeadbeef"⟩,
    ⟨"1", 1, "0xCA", none⟩⟩

/-- Proof artifact at the `now - 3599` boundary. -/
def zpFresh : ZKPaymentProof :=
  ⟨"0xc", "0xn3", ⟨"0xa", "0xs", "0xr", 6401, "0xdeadbeef"⟩,
    ⟨"1", 1, "0xCA", none⟩⟩

/-- Proof artifact at the `now + 61` boundary. -/
def zpFuture : ZKPaymentProof :=
  ⟨"0xc", "0xn4", ⟨"0xa", "0xs", "0xr", 10061, "0xdeadbeef"⟩,
    ⟨"1", 1, "0xCA", none⟩⟩

/-- **C2** — `verifyPaymentProof` runs its checks in order (chain id,
case-insensitive contract address, expiry after one hour, at most sixty
seconds in the future, then signature recovery) and returns the first
failure; recovery failure or a falsy/zero recovered identity rejects; and at
the boundaries, `timestamp = now - 3601` is rejected as expired,
`timestamp = now - 3599` passes the freshness checks (reducing to the
signature step), and `timestamp = now + 61` is rejected as in the future. -/
theorem c2_verify_proof_checks (env : Env) (now : Int)
    (proof : ZKPaymentProof) (cid : Int) (addr : String) :
    (proof.publicInputs.chainId ≠ cid →
      verifyPaymentProof env now proof cid addr =
        ⟨false, some "Chain ID mismatch", none, none⟩)
  ∧ (proof.publicInputs.chainId = cid →
      lowerStr proof.publicInputs.contractAddress ≠ lowerStr addr →
      verifyPaymentProof env now proof cid addr =
        ⟨false, some "Contract address mismatch", none, none⟩)
  ∧ (proof.publicInputs.chainId = cid →
      lowerStr proof.publicInputs.contractAddress = lowerStr addr →
      now - proof.proof.timestamp > 3600 →
      verifyPaymentProof env now proof cid addr =
        ⟨false, some "Proof expired", none, none⟩)
  ∧ (proof.publicInputs.chainId = cid →
      lowerStr proof.publicInputs.contractAddress = lowerStr addr →
      now - proof.proof.timestamp ≤ 3600 →
      proof.proof.timestamp > now + 60 →
      verifyPaymentProof env now proof cid addr =
        ⟨false, some "Proof timestamp in the future", none, none⟩)
  ∧ (proof.publicInputs.chainId = cid →
      lowerStr proof.publicInputs.contractAddress = lowerStr addr →
      now - proof.proof.timestamp ≤ 3600 →
      proof.proof.timestamp ≤ now + 60 →
      verifyPaymentProof env now proof cid addr = proofSigCheck env proof)
  ∧ (∀ e, env.verifyMessage (proofBindingMessage env proof)
        proof.proof.signature = .error e →
      proofSigCheck env proof =
        ⟨false, some ("Proof verification failed: " ++ e), none, none⟩)
  ∧ (∀ a, env.verifyMessage (proofBindingMessage env proof)
        proof.proof.signature = .ok a →
      (a = "" ∨ a = ZeroAddress) →
      proofSigCheck env proof =
        ⟨false, some "Invalid proof signature", none, none⟩)
  ∧ (proof.proof.timestamp = now - 3601 →
      proof.publicInputs.chainId = cid →
      lowerStr proof.publicInputs.contractAddress = lowerStr addr →
      verifyPaymentProof env now proof cid addr =
        ⟨false, some "Proof expired", none, none⟩)
  ∧ (proof.proof.timestamp = now - 3599 →
      proof.publicInputs.chainId = cid →
      lowerStr proof.publicInputs.contractAddress = lowerStr addr →
      verifyPaymentProof env now proof cid addr = proofSigCheck env proof)
  ∧ (proof.proof.timestamp = now + 61 →
      proof.publicInputs.chainId = cid →
      lowerStr proof.publicInputs.contractAddress = lowerStr addr →
      verifyPaymentProof env now proof cid addr =
        ⟨false, some "Proof timestamp in the future", none, none⟩) := by
  refine ⟨?_, ?_, ?_, ?_, ?_, ?_, ?_, ?_, ?_, ?_⟩
  · intro h1
    unfold verifyPaymentProof
    rw [if_pos h1]
  · intro h1 h2
    unfold verifyPaymentProof
    rw [if_neg (by simp [h1]), if_pos h2]
  · intro h1 h2 h3
    unfold verifyPaymentProof
    rw [if_neg (by simp [h1]), if_neg (by simp [h2]), if_pos h3]
  · intro h1 h2 h3 h4
    unfold verifyPaymentProof
    rw [if_neg (by simp [h1]), if_neg (by simp [h2]), if_neg (by omega),
      if_pos h4]
  · intro h1 h2 h3 h4
    unfold verifyPaymentProof
    rw [if_neg (by simp [h1]), if_neg (by simp [h2]), if_neg (by omega),
      if_neg (by omega)]
  · intro e he
    unfold proofSigCheck
    rw [he]
  · intro a ha hza
    unfold proofSigCheck
    rw [ha]
    simp only [hza, if_pos]
  · intro hts h1 h2
    unfold verifyPaymentProof
    rw [if_neg (by simp [h1]), if_neg (by simp [h2]), if_pos (by omega)]
  · intro hts h1 h2
    unfold verifyPaymentProof
    rw [if_neg (by simp [h1]), if_neg (by simp [h2]), if_neg (by omega),
      if_neg (by omega)]
  · intro hts h1 h2
    unfold verifyPaymentProof
    rw [if_neg (by simp [h1]), if_neg (by simp [h2]), if_neg (by omega),
      if_pos (by omega)]

/-- Witness for C2 at `now = 10000`: the three freshness boundaries evaluate
as the claim states. -/
theorem c2_verify_proof_checks_witness :
    verifyPaymentProof envTriv 10000 zpOld 1 "0xCA" =
      ⟨false, some "Proof expired", none, none⟩
  ∧ verifyPaymentProof envTriv 10000 zpFresh 1 "0xCA" =
      proofSigCheck envTriv zpFresh
  ∧ verifyPaymentProof envTriv 10000 zpFuture 1 "0xCA" =
      ⟨false, some "Proof timestamp in the future", none, none⟩ := by
  refine ⟨?_, ?_, ?_⟩
  · exact (c2_verify_proof_checks envTriv 10000 zpOld 1
      "0xCA").2.2.2.2.2.2.2.1 (by decide) rfl rfl
  · exact (c2_verify_proof_checks envTriv 10000 zpFresh 1
      "0xCA").2.2.2.2.2.2.2.2.1 (by decide) rfl rfl
  · exact (c2_verify_proof_checks envTriv 10000 zpFuture 1
      "0xCA").2.2.2.2.2.2.2.2.2 (by decide) rfl rfl

/-- **C3** — `verifyPaymentFromRequest` rejects a decoded payload in order:
unsupported version when `x402Version ≠ 1`, scheme mismatch, insufficient
amount under the integer base-unit comparison of the `parseEther` values,
payment expired when `now - timestamp > 300`; only after all four pass is
scheme-specific verification dispatched. -/
theorem c3_verify_request_order (env : Env) (now : Int)
    (request : HttpRequest) (requirements : PaymentRequirements)
    (chainId : Int) (st : List String) (hdr : String)
    (payload : PaymentPayload)
    (hh : getPaymentHeader request = some hdr) (hne : hdr ≠ "")
    (hd : env.decodePayload hdr = .ok payload) :
    (payload.x402Version ≠ 1 →
      verifyPaymentFromRequest env now request requirements chainId st =
        ⟨false, none, some "Unsupported x402 version"⟩)
  ∧ (payload.x402Version = 1 → payload.scheme ≠ requirements.scheme →
      verifyPaymentFromRequest env now request requirements chainId st =
        ⟨false, none, some "Payment scheme mismatch"⟩)
  ∧ (∀ r p, payload.x402Version = 1 → payload.scheme = requirements.scheme →
      parseEther requirements.maxAmountRequired = .ok r →
      parseEther payload.payload.amount = .ok p → p < r →
      verifyPaymentFromRequest env now request requirements chainId st =
        ⟨false, none, some "Insufficient payment amount"⟩)
  ∧ (∀ r p, payload.x402Version = 1 → payload.scheme = requirements.scheme →
      parseEther requirements.maxAmountRequired = .ok r →
      parseEther payload.payload.amount = .ok p → ¬ p < r →
      now - payload.payload.timestamp > 300 →
      verifyPaymentFromRequest env now request requirements chainId st =
        ⟨false, none, some "Payment expired"⟩)
  ∧ (∀ r p, payload.x402Version = 1 → payload.scheme = requirements.scheme →
      parseEther requirements.maxAmountRequired = .ok r →
      parseEther payload.payload.amount = .ok p → ¬ p < r →
      ¬ now - payload.payload.timestamp > 300 →
      verifyPaymentFromRequest env now request requirements chainId st =
        schemeVerify env now payload requirements chainId st p) := by
  refine ⟨?_, ?_, ?_, ?_, ?_⟩
  · intro h1
    simp only [verifyPaymentFromRequest, hh, hd]
    rw [if_neg hne, if_pos h1]
  · intro h1 h2
    simp only [verifyPaymentFromRequest, hh, hd]
    rw [if_neg hne, if_neg (by simp [h1]), if_pos h2]
  · intro r p h1 h2 hr hp hlt
    simp only [verifyPaymentFromRequest, hh, hd, hr, hp]
    rw [if_neg hne, if_neg (by simp [h1]), if_neg (by simp [h2]), if_pos hlt]
  · intro r p h1 h2 hr hp hge hexp
    simp only [verifyPaymentFromRequest, hh, hd, hr, hp]
    rw [if_neg hne, if_neg (by simp [h1]), if_neg (by simp [h2]),
      if_neg hge, if_pos hexp]
  · intro r p h1 h2 hr hp hge hfresh
    simp only [verifyPaymentFromRequest, hh, hd, hr, hp]
    rw [if_neg hne, if_neg (by simp [h1]), if_neg (by simp [h2]),
      if_neg hge, if_neg hfresh]

/-- Witness for C3: a payload offering `0.5` against a requirement of `1` is
rejected as insufficient (compared as `parseEther` base units). -/
theorem c3_verify_request_order_witness :
    verifyPaymentFromRequest envTriv 1000 ⟨"/api/r", some "p5", none⟩ reqExact
      1 [] = ⟨false, none, some "Insufficient payment amount"⟩ := by
  exact (c3_verify_request_order envTriv 1000 ⟨"/api/r", some "p5", none⟩
      reqExact 1 [] "p5" payloadLowAmount rfl (by decide) rfl).2.2.1
    1000000000000000000 500000000000000000 rfl rfl rfl rfl (by decide)

/-- **C4** (counterexample) — the claim fails as stated: an exact-scheme
payload with no `signature` field at all, passing the version, scheme,
amount and expiry checks, is returned `valid = true`, although there is no
signature to recover a signer from; likewise a payload whose signature field
is present but the empty string is accepted unchecked, because the source's
guard `payload.payload.signature` is JavaScript truthiness and the empty
string is falsy. -/
theorem c4_counterexample :
    verifyPaymentFromRequest envTriv 1000 ⟨"/api/r", some "p3", none⟩ reqExact
      1 [] = ⟨true, some payloadExactNoSig, none⟩
  ∧ payloadExactNoSig.payload.signature = none
  ∧ (∀ sig, payloadExactNoSig.payload.signature = some sig → False)
  ∧ verifyPaymentFromRequest envTriv 1000 ⟨"/api/r", some "p6", none⟩ reqExact
      1 [] = ⟨true, some payloadExactEmptySig, none⟩
  ∧ payloadExactEmptySig.payload.signature = some ""
  ∧ envTriv.verifyMessage
      (envTriv.keccakEnc [.addr payloadExactEmptySig.payload.sender,
        .u 1000000000000000000, .str payloadExactEmptySig.payload.nonce,
        .u payloadExactEmptySig.payload.timestamp]) "" =
      .error "invalid signature" := by
  refine ⟨by rfl, rfl, ?_, by rfl, rfl, by rfl⟩
  intro sig h
  simp [payloadExactNoSig] at h

/-- **C4** (amended) — for every exact-scheme payload whose `signature` field
is present *and non-empty* (truthy, matching the source's guard), the
verification returns `valid = true` only if the signer recovered from that
signature over the recomputed hash of (sender, amount in base units, nonce,
timestamp) equals the payload's sender case-insensitively; an absent or
empty-string signature skips the check entirely. -/
theorem c4_exact_signature_binding (env : Env) (now : Int)
    (request : HttpRequest) (requirements : PaymentRequirements)
    (chainId : Int) (st : List String) (hdr : String)
    (payload : PaymentPayload) (sig : String)
    (hh : getPaymentHeader request = some hdr) (hne : hdr ≠ "")
    (hd : env.decodePayload hdr = .ok payload)
    (hs : payload.scheme = "exact")
    (hsig : payload.payload.signature = some sig)
    (hsigne : sig ≠ "")
    (hv : (verifyPaymentFromRequest env now request requirements chainId
      st).valid = true) :
    ∃ p rec, parseEther payload.payload.amount = .ok p ∧
      env.verifyMessage (env.keccakEnc [.addr payload.payload.sender, .u p,
        .str payload.payload.nonce, .u payload.payload.timestamp]) sig =
        .ok rec ∧
      lowerStr rec = lowerStr payload.payload.sender := by
  simp only [verifyPaymentFromRequest, hh, hd] at hv
  rw [if_neg hne] at hv
  split at hv
  · simp at hv
  · split at hv
    · simp at hv
    · split at hv
      · simp at hv
      · split at hv
        · simp at hv
        · rename_i p hp
          split at hv
          · simp at hv
          · split at hv
            · simp at hv
            · unfold schemeVerify at hv
              rw [if_neg (by simp [hs])] at hv
              unfold exactVerify at hv
              rw [if_pos ⟨hs, by rw [hsig]; simp [truthy, hsigne]⟩] at hv
              simp only [hsig, Option.getD_some] at hv
              split at hv
              · simp at hv
              · rename_i rec hrec
                split at hv
                · simp at hv
                · rename_i hlow
                  exact ⟨p, rec, hp, hrec, not_not.mp hlow⟩

/-- Witness for the amended C4: the concrete signed exact payload is accepted
and its recovered signer matches the sender. -/
theorem c4_exact_signature_binding_witness :
    ∃ p rec, parseEther payloadExactSig.payload.amount = .ok p ∧
      envTriv.verifyMessage
        (envTriv.keccakEnc [.addr payloadExactSig.payload.sender, .u p,
          .str payloadExactSig.payload.nonce,
          .u payloadExactSig.payload.timestamp]) "0xSender" = .ok rec ∧
      lowerStr rec = lowerStr payloadExactSig.payload.sender := by
  exact c4_exact_signature_binding envTriv 1000 ⟨"/api/r", some "p4", none⟩
    reqExact 1 [] "p4" payloadExactSig "0xSender" rfl (by decide) rfl rfl rfl
    (by decide) (by rfl)

/-- **C5** (counterexample) — the claim fails as stated: a settlement that
fails (here: the on-chain transfer of a zk-exact payment throws) is *not*
surfaced in the `PAYMENT-RESPONSE` header — the middleware's header step
attaches the header only when `settlement.success` holds, so the failing
outcome leaves the business response exactly as it was, with no
`PAYMENT-RESPONSE` header at all. -/
theorem c5_counterexample :
    (settlePayment envTriv 777 payloadZkWithProof reqZk
      (some (.error "insufficient funds")) []).1 =
      ⟨false, none, none, some "Settlement failed: insufficient funds"⟩
  ∧ attachSettlementHeader envTriv ⟨200, .business "ok", []⟩
      (settlePayment envTriv 777 payloadZkWithProof reqZk
        (some (.error "insufficient funds")) []).1 =
      ⟨200, .business "ok", []⟩
  ∧ (attachSettlementHeader envTriv ⟨200, .business "ok", []⟩
      (settlePayment envTriv 777 payloadZkWithProof reqZk
        (some (.error "insufficient funds")) []).1).headers.find?
      (fun kv => kv.1 = "PAYMENT-RESPONSE") = none := ⟨by rfl, by rfl, by rfl⟩

/-- **C5** (amended) — when settlement fails, `withX402Payment` does *not*
attach the `PAYMENT-RESPONSE` header (it is attached only on success), and
the HTTP status and body already produced by the business handler are
unchanged: the settlement step never alters status or body, and whenever the
payment verifies, the middleware's response carries the handler's status and
body — settlement failure is never turned into an HTTP failure. -/
theorem c5_settlement_failure_silent (env : Env) (resp : HttpResponse)
    (settlement : SettlementResponse) (now nowMs : Int)
    (handler : HttpRequest → HttpResponse) (config : X402Config)
    (request : HttpRequest) (st : List String) :
    (settlement.success = false →
      attachSettlementHeader env resp settlement = resp)
  ∧ (attachSettlementHeader env resp settlement).status = resp.status
  ∧ (attachSettlementHeader env resp settlement).body = resp.body
  ∧ ((verifyPaymentFromRequest env now request
        (buildRequirements config request.url) config.chainId st).valid =
        true →
      (withX402Payment env now nowMs handler config request st).1.status =
        (handler request).status
      ∧ (withX402Payment env now nowMs handler config request st).1.body =
        (handler request).body) := by
  refine ⟨?_, ?_, ?_, ?_⟩
  · intro hfail
    unfold attachSettlementHeader
    rw [if_neg (by simp [hfail])]
  · unfold attachSettlementHeader
    split <;> rfl
  · unfold attachSettlementHeader
    split <;> rfl
  · intro hvalid
    unfold withX402Payment
    rw [if_neg (by simp [hvalid])]
    constructor
    · split
      · dsimp only
        split
        · unfold attachSettlementHeader
          split <;> rfl
        · rfl
      · rfl
    · split
      · dsimp only
        split
        · unfold attachSettlementHeader
          split <;> rfl
        · rfl
      · rfl

/-- Witness for the amended C5: a concrete failing settlement leaves a
concrete business response untouched. -/
theorem c5_settlement_failure_silent_witness :
    attachSettlementHeader envTriv ⟨201, .business "created", [("X-A", "v")]⟩
      ⟨false, none, none, some "Settlement failed: boom"⟩ =
      ⟨201, .business "created", [("X-A", "v")]⟩ := by
  exact (c5_settlement_failure_silent envTriv
    ⟨201, .business "created", [("X-A", "v")]⟩
    ⟨false, none, none, some "Settlement failed: boom"⟩ 0 0
    (fun _ => ⟨200, .business "ok", []⟩)
    ⟨"1", "d", true, none, "0xPayee", some "0xCA", 1, "monad"⟩
    ⟨"/api/r", none, none⟩ []).1 rfl

/-- A concrete business handler. -/
def hBiz : HttpRequest → HttpResponse := fun _ => ⟨200, .business "ok", []⟩

/-- A concrete middleware configuration (zk-exact, price 1, chain 1). -/
def cfg1 : X402Config :=
  ⟨"1", "demo", true, none, "0xPayee", some "0xCA", 1, "monad"⟩

/-- **C6** — every verification failure makes `withX402Payment` answer with
the 402 built by `createPaymentRequiredResponse`: status 402 (never 500),
body `x402Version = 1` with the failure reason and the requirements list,
the `PAYMENT-REQUIRED` header carrying the encoded copy of the same list,
and the wrapped business handler is never invoked (the outcome is the same
for every handler). -/
theorem c6_verification_failure_402 (env : Env) (now nowMs : Int)
    (handler : HttpRequest → HttpResponse) (config : X402Config)
    (request : HttpRequest) (st : List String)
    (hinv : (verifyPaymentFromRequest env now request
      (buildRequirements config request.url) config.chainId st).valid =
      false) :
    withX402Payment env now nowMs handler config request st =
      (createPaymentRequiredResponse env [buildRequirements config request.url]
        (verifyPaymentFromRequest env now request
          (buildRequirements config request.url) config.chainId st).error, st)
  ∧ (withX402Payment env now nowMs handler config request st).1.status = 402
  ∧ (withX402Payment env now nowMs handler config request st).1.body =
      .paymentRequired 1
        (msgOrDefault (verifyPaymentFromRequest env now request
          (buildRequirements config request.url) config.chainId st).error)
        [buildRequirements config request.url]
  ∧ (withX402Payment env now nowMs handler config request st).1.headers =
      [("PAYMENT-REQUIRED",
          env.encodeReqs [buildRequirements config request.url]),
        ("Content-Type", "application/json")]
  ∧ (∀ handler2, withX402Payment env now nowMs handler2 config request st =
      withX402Payment env now nowMs handler config request st) := by
  have key : ∀ h : HttpRequest → HttpResponse,
      withX402Payment env now nowMs h config request st =
        (createPaymentRequiredResponse env
          [buildRequirements config request.url]
          (verifyPaymentFromRequest env now request
            (buildRequirements config request.url) config.chainId st).error,
          st) := by
    intro h
    unfold withX402Payment
    rw [if_pos hinv]
  refine ⟨key handler, ?_, ?_, ?_, fun h2 => (key h2).trans (key handler).symm⟩
  · rw [key handler]; rfl
  · rw [key handler]; rfl
  · rw [key handler]; rfl

/-- Witness for C6: a request with no payment header at all gets the full
402 negotiation response. -/
theorem c6_verification_failure_402_witness :
    withX402Payment envTriv 1000 999 hBiz cfg1 ⟨"/api/r", none, none⟩ [] =
      (createPaymentRequiredResponse envTriv [buildRequirements cfg1 "/api/r"]
        (some "No payment header provided"), [])
  ∧ (withX402Payment envTriv 1000 999 hBiz cfg1
      ⟨"/api/r", none, none⟩ []).1.status = 402 := by
  have h := c6_verification_failure_402 envTriv 1000 999 hBiz cfg1
    ⟨"/api/r", none, none⟩ [] (by rfl)
  exact ⟨h.1, h.2.1⟩

/-- **C7** — `settlePayment` marks the nullifier of a zk-exact payload
*before* attempting the value transfer, so when the transfer fails it still
returns `success = false` with an error string while the nullifier stays
marked used: any later presentation of a payload carrying the same nullifier
is rejected — an accepted-but-unsettled state. -/
theorem c7_settlement_failure_keeps_nullifier (env : Env) (nowMs : Int)
    (payload : PaymentPayload) (requirements : PaymentRequirements)
    (emsg : String) (st : List String) (zp : ZKPaymentProof)
    (hs : payload.scheme = "zk-exact")
    (hz : payload.payload.zkProof = some zp)
    (hca : truthy requirements.contractAddress = true) :
    (settlePayment env nowMs payload requirements
      (some (.error emsg)) st).1.success = false
  ∧ (settlePayment env nowMs payload requirements
      (some (.error emsg)) st).1.error.isSome = true
  ∧ isNullifierUsed (settlePayment env nowMs payload requirements
      (some (.error emsg)) st).2 zp.nullifier = true
  ∧ (∀ p, parseEther payload.payload.amount = .ok p →
      (settlePayment env nowMs payload requirements
        (some (.error emsg)) st).1.error =
        some ("Settlement failed: " ++ emsg))
  ∧ (∀ request2 hdr2 payload2 zp2 req2 cid2 now2,
      getPaymentHeader request2 = some hdr2 → hdr2 ≠ "" →
      env.decodePayload hdr2 = .ok payload2 →
      payload2.scheme = "zk-exact" →
      payload2.payload.zkProof = some zp2 →
      zp2.nullifier = zp.nullifier →
      (verifyPaymentFromRequest env now2 request2 req2 cid2
        (settlePayment env nowMs payload requirements
          (some (.error emsg)) st).2).valid = false) := by
  refine ⟨?_, ?_, settlePayment_marks env nowMs payload requirements
    (some (.error emsg)) st zp hs hz, ?_, ?_⟩
  · unfold settlePayment
    dsimp only
    rw [if_pos hca]
    split <;> rfl
  · unfold settlePayment
    dsimp only
    rw [if_pos hca]
    split <;> rfl
  · intro p hp
    unfold settlePayment
    dsimp only
    rw [if_pos hca]
    simp only [hp]
  · intro request2 hdr2 payload2 zp2 req2 cid2 now2 hh2 hne2 hd2 hs2 hz2 heq2
    exact verify_spent_valid_false env now2 request2 req2 cid2 _ hdr2 payload2
      zp2 hh2 hne2 hd2 hs2 hz2
      (by rw [heq2]
          exact settlePayment_marks env nowMs payload requirements
            (some (.error emsg)) st zp hs hz)

/-- Witness for C7: the concrete failing transfer leaves `success = false`
with the error string while nullifier `0xn1` is marked, and re-presenting
the payload against the post-settlement store is rejected. -/
theorem c7_settlement_failure_keeps_nullifier_witness :
    (settlePayment envTriv 777 payloadZkWithProof reqZk
      (some (.error "tx reverted")) []).1.success = false
  ∧ isNullifierUsed (settlePayment envTriv 777 payloadZkWithProof reqZk
      (some (.error "tx reverted")) []).2 "0xn1" = true
  ∧ (settlePayment envTriv 777 payloadZkWithProof reqZk
      (some (.error "tx reverted")) []).1.error =
      some "Settlement failed: tx reverted"
  ∧ (verifyPaymentFromRequest envTriv 1000 ⟨"/api/r", some "p2", none⟩ reqZk 1
      (settlePayment envTriv 777 payloadZkWithProof reqZk
        (some (.error "tx reverted")) []).2).valid = false := by
  have h := c7_settlement_failure_keeps_nullifier envTriv 777
    payloadZkWithProof reqZk "tx reverted" [] zp1 rfl rfl (by decide)
  exact ⟨h.1, h.2.2.1, h.2.2.2.1 1000000000000000000 rfl,
    h.2.2.2.2 ⟨"/api/r", some "p2", none⟩ "p2" payloadZkWithProof zp1 reqZk 1
      1000 rfl (by decide) rfl rfl rfl rfl⟩

/-- The pattern-scan of `matchRoute` agrees with the first-match search over
`patternEntryMatches` whenever every pattern in the table compiles. -/
theorem scanRoutes_eq_find (pathname methodU : String)
    (routes : List (String × RoutePaymentConfig))
    (h : ∀ e ∈ routes, (tokenizePattern (splitKey e.1).2).isSome) :
    scanRoutes pathname methodU routes =
      .ok (routes.find? (patternEntryMatches pathname methodU)) := by
  induction routes with
  | nil => rfl
  | cons e rest ih =>
    obtain ⟨pattern, config⟩ := e
    have h1 := h ⟨pattern, config⟩ (List.mem_cons_self _ _)
    have h2 : ∀ x ∈ rest, (tokenizePattern (splitKey x.1).2).isSome :=
      fun x hx => h x (List.mem_cons_of_mem _ hx)
    rcases htok : tokenizePattern (splitKey pattern).2 with _ | toks
    · rw [htok] at h1
      simp at h1
    · simp only [scanRoutes]
      by_cases hm : (splitKey pattern).1 ≠ methodU ∧ (splitKey pattern).1 ≠ "*"
      · rw [if_pos hm,
          List.find?_cons_of_neg _ (by simp [patternEntryMatches, hm.1, hm.2])]
        exact ih h2
      · have hm2 : (splitKey pattern).1 = methodU ∨
            (splitKey pattern).1 = "*" := by tauto
        rw [if_neg hm]
        simp only [htok]
        by_cases hg : globMatch toks pathname.toList
        · rw [if_pos hg,
            List.find?_cons_of_pos _
              (by simp [patternEntryMatches, htok, hm2]; exact hg)]
        · rw [if_neg hg,
            List.find?_cons_of_neg _
              (by simp [patternEntryMatches, htok]
                  intro _
                  simpa using hg)]
          exact ih h2

/-- **C8** — `matchRoute` first tries the exact `"METHOD path"` key (method
upper-cased); failing that it scans the pattern entries in order, skipping
those whose method part neither equals the upper-cased request method nor is
`*`, matching the path parts as anchored patterns in which `*` matches any
run of characters and `[name]` a single non-slash segment; it returns the
first match and `none` when nothing matches.  Stated as agreement with
`matchRouteSpec`, written from the specification sentence, on every route
table whose patterns compile. -/
theorem c8_matchRoute_first_match (pathname method : String)
    (routes : List (String × RoutePaymentConfig))
    (h : ∀ e ∈ routes, (tokenizePattern (splitKey e.1).2).isSome) :
    matchRoute pathname method routes =
      .ok (matchRouteSpec pathname method routes) := by
  unfold matchRoute matchRouteSpec
  rcases hf : findEntry routes (upperStr method ++ " " ++ pathname)
    with _ | c
  · simp only [hf]
    exact scanRoutes_eq_find pathname (upperStr method) routes h
  · simp only [hf]

/-- Concrete bounty route configuration. -/
def cfgA : RoutePaymentConfig := ⟨"0.01", "bounty", true, none⟩

/-- Concrete data route configuration. -/
def cfgB : RoutePaymentConfig := ⟨"0.001", "data", false, none⟩

/-- A concrete route table exercising exact keys, the `[id]` segment pattern
and the `*` wildcard with a wildcard method. -/
def routesFix : List (String × RoutePaymentConfig) :=
  [("GET /api/bounties/[id]", cfgA), ("* /api/data/*", cfgB),
    ("POST /api/exact", cfgB)]

/-- Witness for C8: exact key hit, `[id]` segment match, `*` wildcard match
under a wildcard method, and the unmatched fall-through. -/
theorem c8_matchRoute_first_match_witness :
    matchRoute "/api/exact" "post" routesFix =
      .ok (some ("POST /api/exact", cfgB))
  ∧ matchRoute "/api/bounties/7" "get" routesFix =
      .ok (some ("GET /api/bounties/[id]", cfgA))
  ∧ matchRoute "/api/data/x/y" "post" routesFix =
      .ok (some ("* /api/data/*", cfgB))
  ∧ matchRoute "/api/other" "get" routesFix = .ok none := by
  have hwf : ∀ e ∈ routesFix,
      (tokenizePattern (splitKey e.1).2).isSome := by decide
  refine ⟨?_, ?_, ?_, ?_⟩
  · rw [c8_matchRoute_first_match _ _ _ hwf]
    rfl
  · rw [c8_matchRoute_first_match _ _ _ hwf]
    rfl
  · rw [c8_matchRoute_first_match _ _ _ hwf]
    rfl
  · rw [c8_matchRoute_first_match _ _ _ hwf]
    rfl

/-- **C9** — some payloads are accepted with no cryptographic check at all:
a zk-exact payload whose `zkProof` field is absent (or an exact payload whose
`signature` field is absent) that passes the version, scheme, amount and
freshness checks is returned `valid = true`; in the zk-exact case the
nullifier store is never consulted — the result is the same for every
store. -/
theorem c9_unverified_acceptance (env : Env) (now : Int)
    (request : HttpRequest) (requirements : PaymentRequirements)
    (chainId : Int) (hdr : String) (payload : PaymentPayload) (r p : Int)
    (hh : getPaymentHeader request = some hdr) (hne : hdr ≠ "")
    (hd : env.decodePayload hdr = .ok payload)
    (hv : payload.x402Version = 1)
    (hsch : payload.scheme = requirements.scheme)
    (hr : parseEther requirements.maxAmountRequired = .ok r)
    (hp : parseEther payload.payload.amount = .ok p)
    (hge : ¬ p < r)
    (hfresh : ¬ now - payload.payload.timestamp > 300) :
    (payload.scheme = "zk-exact" → payload.payload.zkProof = none →
      ∀ st, verifyPaymentFromRequest env now request requirements chainId st =
        ⟨true, some payload, none⟩)
  ∧ (payload.scheme = "exact" → payload.payload.signature = none →
      ∀ st, verifyPaymentFromRequest env now request requirements chainId st =
        ⟨true, some payload, none⟩) := by
  constructor
  · intro hzk hnone st
    simp only [verifyPaymentFromRequest, hh, hd, hr, hp]
    rw [if_neg hne, if_neg (by simp [hv]), if_neg (by simp [hsch]),
      if_neg hge, if_neg hfresh]
    unfold schemeVerify
    rw [if_pos hzk]
    simp only [hnone]
    unfold exactVerify
    rw [if_neg (by simp [hzk])]
  · intro hex hnone st
    simp only [verifyPaymentFromRequest, hh, hd, hr, hp]
    rw [if_neg hne, if_neg (by simp [hv]), if_neg (by simp [hsch]),
      if_neg hge, if_neg hfresh]
    unfold schemeVerify
    rw [if_neg (by simp [hex])]
    unfold exactVerify
    rw [if_neg (by simp [hnone, truthy])]

/-- Witness for C9: the concrete zk-exact payload without a proof is accepted
against a non-empty nullifier store, and the concrete exact payload without a
signature is accepted. -/
theorem c9_unverified_acceptance_witness :
    verifyPaymentFromRequest envTriv 1000 ⟨"/api/r", some "p1", none⟩ reqZk 1
      ["0xsomeusednullifier"] = ⟨true, some payloadZkNoProof, none⟩
  ∧ verifyPaymentFromRequest envTriv 1000 ⟨"/api/r", some "p3", none⟩ reqExact
      1 [] = ⟨true, some payloadExactNoSig, none⟩ := by
  constructor
  · exact (c9_unverified_acceptance envTriv 1000 ⟨"/api/r", some "p1", none⟩
      reqZk 1 "p1" payloadZkNoProof 1000000000000000000 1000000000000000000
      rfl (by decide) rfl rfl rfl rfl rfl (by decide) (by decide)).1
      rfl rfl ["0xsomeusednullifier"]
  · exact (c9_unverified_acceptance envTriv 1000 ⟨"/api/r", some "p3", none⟩
      reqExact 1 "p3" payloadExactNoSig 1000000000000000000
      1000000000000000000 rfl (by decide) rfl rfl rfl rfl rfl (by decide)
      (by decide)).2 rfl rfl []

/-- Arbitrary proof artifact: its commitment, nullifier and hash fields bear
no relation to any payment, sender or amount. -/
def zpArb : ZKPaymentProof :=
  ⟨"0xarbitrarycommitment", "0xarbitrarynullifier",
    ⟨"0xh1", "0xh2", "0xh3", 950, "0xAttackerSig"⟩,
    ⟨"999", 1, "0xCA", some "b-9"⟩⟩

/-- **C10** — `verifyPaymentProof` binds the signature to nothing: for any
proof whose chain id and contract address match (case-insensitively) and
whose timestamp is inside the freshness window, validity requires only that
signature recovery over the binding message succeeds with a non-empty,
non-zero identity — the recovered signer is never compared to any sender and
none of commitment, amountHash, senderHash, receiverHash is recomputed, so
arbitrary values of those fields verify. -/
theorem c10_proof_signature_unbound (env : Env) (now : Int)
    (proof : ZKPaymentProof) (cid : Int) (addr : String) (a : String)
    (hc : proof.publicInputs.chainId = cid)
    (ha : lowerStr proof.publicInputs.contractAddress = lowerStr addr)
    (hf : now - proof.proof.timestamp ≤ 3600)
    (hg : proof.proof.timestamp ≤ now + 60)
    (hrec : env.verifyMessage (proofBindingMessage env proof)
      proof.proof.signature = .ok a)
    (hne : a ≠ "") (hza : a ≠ ZeroAddress) :
    verifyPaymentProof env now proof cid addr =
      ⟨true, none, some proof.commitment, some proof.nullifier⟩ := by
  unfold verifyPaymentProof
  rw [if_neg (by simp [hc]), if_neg (by simp [ha]), if_neg (by omega),
    if_neg (by omega)]
  unfold proofSigCheck
  simp only [hrec]
  rw [if_neg (by simp [hne, hza])]

/-- Witness for C10: a proof with arbitrary commitment, nullifier and hash
fields verifies against a differently-cased contract address. -/
theorem c10_proof_signature_unbound_witness :
    verifyPaymentProof envTriv 1000 zpArb 1 "0xCa" =
      ⟨true, none, some "0xarbitrarycommitment",
        some "0xarbitrarynullifier"⟩ := by
  exact c10_proof_signature_unbound envTriv 1000 zpArb 1 "0xCa"
    "0xAttackerSig" rfl (by decide) (by decide) (by decide) (by rfl)
    (by decide) (by decide)

end X402
